import Mathlib

/-!
Shallow embedding of `src/server.py` (FetchSERP MCP server).

The server defines two MCP tools inside `create_mcp_server`:

* `search(query)` lower-cases the query, tests six keyword category lists by
  Python substring containment, appends a fixed result record per matching
  category, falls back to a default list of four records when nothing matches,
  and returns a single `{"type": "text", "text": json.dumps({"results": ...})}`
  content block.

* `fetch(id)` looks the id up in a static `analysis_data` dictionary of six
  canned records; an unknown id produces an in-band error record; the chosen
  record is returned as a single `{"type": "text", "text": json.dumps(data)}`
  content block.

* `call_fetchserp(endpoint, params)` performs the only upstream HTTP access in
  the file, with `httpx.AsyncClient(timeout=30.0)`; exceptions are caught and
  turned into an `{"error": ...}` dictionary. Neither tool calls it.

All definitions below are transcribed from the source; strings are the source
literals (apostrophes written `\x27`, newlines `\n`).
-/

namespace FetchServ

/-- Python `needle.isPrefixOf hay` on character lists (helper for substring
containment). -/
def isPrefixL : List Char → List Char → Bool
  | [], _ => true
  | _ :: _, [] => false
  | a :: as, b :: bs => a == b && isPrefixL as bs

/-- Python substring containment `needle in hay` on character lists. -/
def containsL (needle : List Char) : List Char → Bool
  | [] => isPrefixL needle []
  | b :: bs => isPrefixL needle (b :: bs) || containsL needle bs

/-- Python `needle in hay` for strings (substring containment), as used by
`if any(word in query_lower for word in [...])` in `search`. -/
def pyIn (needle hay : String) : Bool :=
  containsL needle.toList hay.toList

/-- Model of Python `str.lower()` restricted to ASCII (every keyword the code
compares against is ASCII). -/
def lowerStr (s : String) : String :=
  String.mk (s.toList.map Char.toLower)

/-- Python `any(word in ql for word in words)`. -/
def anyWord (words : List String) (ql : String) : Bool :=
  words.any (fun w => pyIn w ql)

/-- One element of the `results` list built by `search`
(`{"id": ..., "title": ..., "url": ...}`). -/
structure SearchResult where
  id : String
  title : String
  url : String
deriving DecidableEq, Repr

/-- Line 63 of `search`: the SEO Analysis record. -/
def seoResult : SearchResult :=
  { id := "seo_analysis"
    title := "SEO Analysis & Website Audit"
    url := "https://www.fetchserp.com/api/web-page-seo-analysis" }

/-- Line 71 of `search`: the Keyword Research record. -/
def keywordResult : SearchResult :=
  { id := "keyword_research"
    title := "Keyword Research & Search Intelligence"
    url := "https://www.fetchserp.com/api/keywords-search-volume" }

/-- Line 79 of `search`: the Domain Analysis record. -/
def domainResult : SearchResult :=
  { id := "domain_analysis"
    title := "Domain Intelligence & Backlink Analysis"
    url := "https://www.fetchserp.com/api/backlinks" }

/-- Line 87 of `search`: the SERP Analysis record. -/
def serpResult : SearchResult :=
  { id := "serp_analysis"
    title := "SERP Intelligence & Ranking Analysis"
    url := "https://www.fetchserp.com/api/serp" }

/-- Line 95 of `search`: the Web Scraping record. -/
def webScrapingResult : SearchResult :=
  { id := "web_scraping"
    title := "Web Scraping & Data Extraction"
    url := "https://www.fetchserp.com/api/scrape" }

/-- Line 103 of `search`: the Competitor Analysis record. -/
def competitorResult : SearchResult :=
  { id := "competitor_analysis"
    title := "Competitive Intelligence & Market Analysis"
    url := "https://www.fetchserp.com/api/competitive-analysis" }

/-- Lines 110-132 of `search`: the default comprehensive results used when no
category keyword matches.  The source repeats the four dictionary literals;
they are equal to the records above. -/
def defaultResults : List SearchResult :=
  [seoResult, keywordResult, domainResult, serpResult]

/-- Keyword list for the SEO Analysis category (line 62). -/
def seoWords : List String :=
  ["seo", "audit", "analyze", "website", "technical", "optimization"]

/-- Keyword list for the Keyword Research category (line 70). -/
def keywordWords : List String :=
  ["keyword", "search volume", "suggestions", "long tail", "research"]

/-- Keyword list for the Domain Analysis category (line 78). -/
def domainWords : List String :=
  ["domain", "backlink", "authority", "moz", "links", "dns", "whois"]

/-- Keyword list for the SERP Analysis category (line 86). -/
def serpWords : List String :=
  ["serp", "ranking", "google", "search results", "position", "indexation"]

/-- Keyword list for the Web Scraping category (line 94). -/
def scrapeWords : List String :=
  ["scrape", "extract", "content", "data", "crawl"]

/-- Keyword list for the Competitor Analysis category (line 102). -/
def competitorWords : List String :=
  ["competitor", "competition", "rival", "compare", "competitive"]

/-- Model of `if b: results.append(r)`: the contribution of one category test to the
`results` list. -/
def flagged (b : Bool) (r : SearchResult) : List SearchResult :=
  if b then [r] else []

/-- The `results` list as a function of the six category-match flags, with the
default fallback of lines 110-132. -/
def buildResults (b1 b2 b3 b4 b5 b6 : Bool) : List SearchResult :=
  let results :=
    flagged b1 seoResult ++ flagged b2 keywordResult ++ flagged b3 domainResult
      ++ flagged b4 serpResult ++ flagged b5 webScrapingResult
      ++ flagged b6 competitorResult
  if results.isEmpty then defaultResults else results

/-- Lines 57-132 of `search` applied to the already lower-cased query. -/
def searchResultsCore (ql : String) : List SearchResult :=
  buildResults (anyWord seoWords ql) (anyWord keywordWords ql)
    (anyWord domainWords ql) (anyWord serpWords ql)
    (anyWord scrapeWords ql) (anyWord competitorWords ql)

/-- The `results` list computed by the `search` tool for a query
(lines 57-132: `query_lower = query.lower()` then the category tests). -/
def searchResults (query : String) : List SearchResult :=
  searchResultsCore (lowerStr query)

/-- The six result records that can ever appear in a `results` list. -/
def allSearchResults : List SearchResult :=
  [seoResult, keywordResult, domainResult, serpResult, webScrapingResult,
    competitorResult]

/-! JSON values and Python `json.dumps` (default separators, `ensure_ascii`). -/

/-- JSON values as they occur in the two tool payloads (strings, arrays,
objects; no numbers, booleans or null appear). -/
inductive Json where
  | str : String → Json
  | arr : List Json → Json
  | obj : List (String × Json) → Json
deriving Repr

/-- Lower-case hexadecimal digit, for `\uXXXX` escapes. -/
def hexDigitChar (n : Nat) : Char :=
  if n < 10 then Char.ofNat (48 + n) else Char.ofNat (87 + n)

/-- Four-digit hexadecimal rendering of a code point below 0x10000. -/
def hex4 (n : Nat) : String :=
  String.mk [hexDigitChar (n / 4096 % 16), hexDigitChar (n / 256 % 16),
    hexDigitChar (n / 16 % 16), hexDigitChar (n % 16)]

/-- Escaping of one character as in Python `json.dumps` with its default
`ensure_ascii=True` (ASCII printables pass through, `"` `\\` and the usual
control characters are backslash-escaped, the rest become `\uXXXX`). -/
def escapeChar (c : Char) : String :=
  if c = Char.ofNat 34 then String.mk [Char.ofNat 92, Char.ofNat 34]
  else if c = Char.ofNat 92 then String.mk [Char.ofNat 92, Char.ofNat 92]
  else if c = Char.ofNat 10 then String.mk [Char.ofNat 92, Char.ofNat 110]
  else if c = Char.ofNat 9 then String.mk [Char.ofNat 92, Char.ofNat 116]
  else if c = Char.ofNat 13 then String.mk [Char.ofNat 92, Char.ofNat 114]
  else if c.toNat < 32 || c.toNat > 126 then
    String.mk [Char.ofNat 92, Char.ofNat 117] ++ hex4 c.toNat
  else String.mk [c]

/-- Escaping of a whole string. -/
def escapeStr (s : String) : String :=
  String.join (s.toList.map escapeChar)

/-- A JSON string literal: `"` around the escaped content. -/
def quoteStr (s : String) : String :=
  String.mk [Char.ofNat 34] ++ escapeStr s ++ String.mk [Char.ofNat 34]

mutual

/-- Model of Python `json.dumps` with the default separators `", "` and
`": "`, as called on the two tool payloads. -/
def dumps : Json → String
  | .str s => quoteStr s
  | .arr xs => "[" ++ dumpsArr xs ++ "]"
  | .obj kvs => String.mk [Char.ofNat 123] ++ dumpsObj kvs ++ String.mk [Char.ofNat 125]

/-- Array elements joined by `", "`. -/
def dumpsArr : List Json → String
  | [] => ""
  | [x] => dumps x
  | x :: y :: xs => dumps x ++ ", " ++ dumpsArr (y :: xs)

/-- Object entries `key: value` joined by `", "`. -/
def dumpsObj : List (String × Json) → String
  | [] => ""
  | [kv] => quoteStr kv.1 ++ ": " ++ dumps kv.2
  | kv :: e :: es => quoteStr kv.1 ++ ": " ++ dumps kv.2 ++ ", " ++ dumpsObj (e :: es)

end

/-- Top-level keys of a JSON object (`[]` on non-objects). -/
def jsonTopKeys : Json → List String
  | .obj kvs => kvs.map Prod.fst
  | _ => []

/-- One element of the content array both tools return
(`\x7b"type": "text", "text": ...\x7d`). -/
structure ContentBlock where
  type : String
  text : String
deriving DecidableEq, Repr

/-- JSON rendering of one search result (dictionary key order of the
source literals: id, title, url). -/
def resultToJson (r : SearchResult) : Json :=
  Json.obj [("id", Json.str r.id), ("title", Json.str r.title),
    ("url", Json.str r.url)]

/-- Line 135: `json.dumps(\x7b"results": results\x7d)`, before serialisation. -/
def searchPayload (query : String) : Json :=
  Json.obj [("results", Json.arr ((searchResults query).map resultToJson))]

/-- Lines 134-136 of `search`: the returned content array
`[\x7b"type": "text", "text": results_json\x7d]`. -/
def searchTool (query : String) : List ContentBlock :=
  [{ type := "text", text := dumps (searchPayload query) }]

/-! The `fetch` tool (lines 138-474). -/

/-- Value of one `metadata` entry: every metadata value in `analysis_data`
is either a string or a list of strings. -/
inductive MetaValue where
  | mstr : String → MetaValue
  | mlist : List String → MetaValue
deriving DecidableEq, Repr

/-- One record of `analysis_data` (or the error record), with the source
dictionary key order: id, title, text, url, metadata. -/
structure AnalysisRecord where
  id : String
  title : String
  text : String
  url : String
  metadata : List (String × MetaValue)
deriving DecidableEq, Repr

/-- Canned `text` field of the `seo_analysis` record in `analysis_data`. -/
def seoText : String :=
  "FetchSERP provides comprehensive SEO analysis through the web_page_seo_analysis API endpoint. This powerful tool delivers:\n\nTECHNICAL SEO AUDIT:\n• Meta tags analysis (title, description, keywords optimization)\n• Header structure evaluation (H1-H6 hierarchy and optimization)\n• URL structure and permalink analysis  \n• Schema markup validation and recommendations\n• Internal linking structure assessment\n• Site architecture and navigation analysis\n\nON-PAGE OPTIMIZATION:\n• Content quality and keyword density analysis\n• Image optimization and alt-text evaluation\n• Core Web Vitals assessment (LCP, FID, CLS)\n• Page speed and performance metrics\n• Mobile-friendliness and responsive design check\n• User experience and accessibility factors\n\nCONTENT ANALYSIS:\n• Keyword optimization opportunities\n• Content length and readability scores\n• Semantic keyword suggestions\n• Content gaps and improvement recommendations\n• Competitor content comparison\n• Search intent alignment assessment\n\nAPI ENDPOINTS AVAILABLE:\n• web_page_seo_analysis - Complete technical SEO audit\n• web_page_ai_analysis - AI-powered content analysis with custom prompts\n\nREAL-TIME DATA: All analysis uses live data from your website, providing current SEO status and actionable optimization recommendations. Results include specific technical issues, priority levels, and step-by-step improvement guides."

/-- Canned `text` field of the `keyword_research` record in `analysis_data`. -/
def keywordText : String :=
  "FetchSERP\x27s keyword research capabilities provide advanced search intelligence through multiple API endpoints:\n\nSEARCH VOLUME DATA:\n• Monthly search volume for any keyword globally\n• Historical search trends and seasonality patterns\n• Keyword difficulty and competition metrics\n• Cost-per-click (CPC) estimates for paid advertising\n• Search volume by country and language\n• Related keyword suggestions with metrics\n\nLONG-TAIL KEYWORD GENERATION:\n• Generate hundreds of long-tail keyword variations\n• Search intent classification (informational, commercial, transactional, navigational)\n• Question-based keyword discovery (who, what, when, where, why, how)\n• Autocomplete and suggest API integration\n• Competitor keyword gap analysis\n\nKEYWORD INTELLIGENCE:\n• Trending keywords identification\n• Seasonal keyword opportunities  \n• Local search keyword variants\n• Voice search optimization keywords\n• Featured snippet optimization opportunities\n• People Also Ask (PAA) keyword extraction\n\nAPI ENDPOINTS AVAILABLE:\n• keywords_search_volume - Get monthly search volumes and competition data\n• keywords_suggestions - Find related keywords based on seed terms or URLs\n• long_tail_keywords_generator - Generate long-tail keyword variations\n\nGLOBAL DATA: Access keyword data from 200+ countries with local search volume, competition levels, and cultural keyword variations for international SEO strategies."

/-- Canned `text` field of the `domain_analysis` record in `analysis_data`. -/
def domainText : String :=
  "FetchSERP provides comprehensive domain intelligence and backlink analysis through multiple specialized APIs:\n\nBACKLINK ANALYSIS:\n• Complete backlink profile discovery and analysis\n• Referring domains and pages identification\n• Link quality assessment and spam detection\n• Anchor text distribution and optimization opportunities\n• Follow vs nofollow link ratio analysis\n• Competitor backlink gap analysis and opportunities\n\nDOMAIN AUTHORITY METRICS:\n• Moz Domain Authority and Page Authority scores\n• Domain Rating and URL Rating metrics\n• Trust Flow and Citation Flow analysis\n• Spam score assessment and risk evaluation\n• Historical authority trends and changes\n• Competitive authority benchmarking\n\nTECHNICAL DOMAIN INTELLIGENCE:\n• DNS records analysis (A, AAAA, MX, CNAME, TXT, NS)\n• WHOIS data including registration details and history\n• SSL certificate information and security assessment\n• Technology stack detection (CMS, frameworks, analytics, CDN)\n• Server location and hosting provider identification\n• Website architecture and infrastructure analysis\n\nCONTACT DISCOVERY:\n• Email address extraction from domain SERPs\n• Social media profile identification\n• Contact form and phone number discovery\n• Key personnel and decision maker identification\n\nAPI ENDPOINTS AVAILABLE:\n• backlinks - Comprehensive backlink discovery and analysis\n• moz - Domain authority metrics from Moz integration\n• domain_infos - Technical domain information (DNS, WHOIS, SSL, tech stack)\n• domain_emails - Email and contact information extraction\n\nCOMPETITIVE INTELLIGENCE: Compare your domain authority, backlink profile, and technical setup against competitors to identify optimization opportunities and strategic advantages."

/-- Canned `text` field of the `serp_analysis` record in `analysis_data`. -/
def serpText : String :=
  "FetchSERP offers advanced SERP analysis and ranking intelligence across multiple search engines:\n\nMULTI-ENGINE SERP RESULTS:\n• Google, Bing, Yahoo, DuckDuckGo search results\n• Organic results with ranking positions and URLs\n• Featured snippets and knowledge panels extraction\n• People Also Ask (PAA) questions and answers\n• Related searches and autocomplete suggestions\n• Local pack results and map listings\n\nAI OVERVIEW ANALYSIS:\n• Google\x27s AI Overview content extraction\n• Featured snippet optimization opportunities\n• Answer box and knowledge graph analysis\n• Voice search result formatting\n• Rich results and structured data insights\n\nRANKING TRACKING:\n• Domain ranking positions for specific keywords\n• Historical ranking data and trend analysis\n• SERP feature tracking (images, videos, local, shopping)\n• Mobile vs desktop ranking differences\n• Geographic ranking variations by location\n• Competitor ranking comparison and analysis\n\nINDEXATION MONITORING:\n• Page indexation status verification\n• Index coverage and crawling insights\n• Sitemap analysis and submission tracking\n• Robots.txt compliance checking\n• Canonical URL validation\n\nAPI ENDPOINTS AVAILABLE:\n• serp - Structured SERP results from all major search engines\n• serp_ai - AI Overview and enhanced SERP features\n• serp_html - Complete HTML content for detailed analysis\n• ranking - Domain ranking positions for specific keywords\n• page_indexation - Indexation status verification\n\nREAL-TIME SERP DATA: Access live search engine results with sub-second response times, enabling real-time SEO monitoring and competitive analysis."

/-- Canned `text` field of the `web_scraping` record in `analysis_data`. -/
def webScrapingText : String :=
  "FetchSERP provides advanced web scraping and data extraction capabilities for comprehensive website analysis:\n\nCONTENT EXTRACTION:\n• Full webpage content extraction with clean HTML parsing\n• Text content isolation removing ads, navigation, and boilerplate\n• Structured data extraction (JSON-LD, microdata, RDFa)\n• Image and media content analysis with metadata\n• Form field identification and structure mapping\n• Table data extraction with column recognition\n\nJAVASCRIPT RENDERING:\n• Custom JavaScript execution on target pages\n• Dynamic content scraping from SPA and AJAX sites\n• Browser automation for complex user interactions\n• Screenshot capture at different viewport sizes\n• Performance metrics collection during rendering\n• Cookie and session management for authenticated content\n\nPROXY-BASED SCRAPING:\n• Geographic proxy rotation for location-specific content\n• IP rotation to avoid rate limiting and blocking\n• User-agent rotation for stealth scraping\n• CAPTCHA handling and anti-bot bypass techniques\n• Session persistence across multiple requests\n• Custom header injection and request modification\n\nBULK DOMAIN CRAWLING:\n• Complete website mapping and sitemap generation\n• Deep crawling with configurable depth limits\n• Broken link detection and redirect chain analysis\n• Duplicate content identification across pages\n• Internal linking structure analysis\n• Page speed and performance profiling\n\nAPI ENDPOINTS AVAILABLE:\n• scrape - Basic webpage content extraction without JavaScript\n• scrape_js - JavaScript-rendered content scraping with custom scripts\n• scrape_js_with_proxy - Geo-targeted scraping through country-specific proxies\n• domain_scraping - Bulk crawling of entire domains with up to 200 pages\n\nETHICAL SCRAPING: All scraping respects robots.txt files, implements rate limiting, and follows ethical scraping practices to maintain website performance and comply with terms of service."

/-- Canned `text` field of the `competitor_analysis` record in `analysis_data`. -/
def competitorText : String :=
  "FetchSERP enables comprehensive competitive intelligence by combining multiple API endpoints for strategic market analysis:\n\nCOMPETITIVE SEO ANALYSIS:\n• Competitor website SEO audit comparison\n• Technical SEO gap analysis between competitors\n• Content strategy and optimization differences\n• Meta tag and on-page optimization benchmarking\n• Site speed and Core Web Vitals comparison\n• Mobile optimization competitive assessment\n\nBACKLINK COMPETITIVE INTELLIGENCE:\n• Competitor backlink profile analysis and comparison\n• Link building opportunity identification from competitor links\n• Anchor text strategy analysis across competitors\n• Domain authority gap analysis and competitive positioning\n• High-value referring domain discovery from competitor profiles\n• Broken link opportunities from competitor analysis\n\nKEYWORD COMPETITIVE RESEARCH:\n• Competitor keyword ranking analysis and gaps\n• Search volume opportunities competitors are missing\n• Long-tail keyword variations competitors target\n• Paid search keyword strategy analysis\n• Content topic clusters and keyword themes comparison\n• Seasonal keyword strategy analysis across competitors\n\nSERP COMPETITIVE MONITORING:\n• Head-to-head ranking comparison for target keywords\n• Featured snippet and AI Overview competitive analysis\n• Local search competitive positioning (if applicable)\n• SERP feature dominance analysis (images, videos, shopping)\n• Voice search optimization competitive assessment\n• Geographic ranking variations compared to competitors\n\nMARKET INTELLIGENCE:\n• Technology stack comparison and competitive advantages\n• Content marketing strategy analysis and gaps\n• Social media presence and engagement comparison\n• Email marketing and contact strategy analysis\n• Website architecture and user experience benchmarking\n• Conversion optimization and landing page analysis\n\nSTRATEGIC RECOMMENDATIONS:\n• Prioritized competitive opportunities based on data analysis\n• Quick wins for outranking competitors in specific areas\n• Long-term strategic recommendations for competitive advantage\n• ROI-focused competitive initiatives with projected impact\n• Risk assessment of competitive threats and market changes\n\nThis comprehensive competitive analysis combines data from web_page_seo_analysis, backlinks, keywords_search_volume, serp, moz, and domain_infos APIs to provide actionable competitive intelligence."

/-- Record `analysis_data["seo_analysis"]` (lines 154-195). -/
def seoRecord : AnalysisRecord :=
  { id := "seo_analysis"
    title := "SEO Analysis & Website Audit"
    text := seoText
    url := "https://docs.fetchserp.com/api-reference/seo-analysis/web-page-seo-analysis"
    metadata := [("api_endpoint", .mstr "web_page_seo_analysis"),
      ("data_freshness", .mstr "real-time"),
      ("analysis_depth", .mstr "comprehensive"),
      ("output_format", .mstr "structured_json")] }

/-- Record `analysis_data["keyword_research"]` (lines 197-238). -/
def keywordRecord : AnalysisRecord :=
  { id := "keyword_research"
    title := "Keyword Research & Search Intelligence"
    text := keywordText
    url := "https://docs.fetchserp.com/api-reference/keywords/keywords-search-volume"
    metadata := [("api_endpoints", .mlist ["keywords_search_volume",
        "keywords_suggestions", "long_tail_keywords_generator"]),
      ("geographic_coverage", .mstr "200+ countries"),
      ("data_sources", .mstr "google_keyword_planner_and_serp_data"),
      ("update_frequency", .mstr "monthly")] }

/-- Record `analysis_data["domain_analysis"]` (lines 240-289). -/
def domainRecord : AnalysisRecord :=
  { id := "domain_analysis"
    title := "Domain Intelligence & Backlink Analysis"
    text := domainText
    url := "https://docs.fetchserp.com/api-reference/domains/backlinks"
    metadata := [("api_endpoints", .mlist ["backlinks", "moz", "domain_infos",
        "domain_emails"]),
      ("backlink_database", .mstr "200+ billion links"),
      ("moz_integration", .mstr "official_api_partnership"),
      ("data_freshness", .mstr "updated_daily")] }

/-- Record `analysis_data["serp_analysis"]` (lines 291-341). -/
def serpRecord : AnalysisRecord :=
  { id := "serp_analysis"
    title := "SERP Intelligence & Ranking Analysis"
    text := serpText
    url := "https://docs.fetchserp.com/api-reference/serp/serp"
    metadata := [("search_engines", .mlist ["google", "bing", "yahoo",
        "duckduckgo"]),
      ("geographic_coverage", .mstr "200+ countries"),
      ("api_endpoints", .mlist ["serp", "serp_ai", "serp_html", "ranking",
        "page_indexation"]),
      ("response_time", .mstr "sub_second")] }

/-- Record `analysis_data["web_scraping"]` (lines 343-394). -/
def webScrapingRecord : AnalysisRecord :=
  { id := "web_scraping"
    title := "Web Scraping & Data Extraction"
    text := webScrapingText
    url := "https://docs.fetchserp.com/api-reference/scraping/scrape"
    metadata := [("api_endpoints", .mlist ["scrape", "scrape_js",
        "scrape_js_with_proxy", "domain_scraping"]),
      ("javascript_support", .mstr "full_browser_automation"),
      ("proxy_locations", .mstr "50+ countries"),
      ("max_pages_per_domain", .mstr "200")] }

/-- Record `analysis_data["competitor_analysis"]` (lines 396-456). -/
def competitorRecord : AnalysisRecord :=
  { id := "competitor_analysis"
    title := "Competitive Intelligence & Market Analysis"
    text := competitorText
    url := "https://docs.fetchserp.com/api-reference/competitive-analysis"
    metadata := [("analysis_scope", .mstr "comprehensive_multi_api"),
      ("data_sources", .mlist ["seo_analysis", "backlinks", "keywords",
        "serp", "moz", "domain_intelligence"]),
      ("competitive_depth", .mstr "strategic_recommendations_included"),
      ("update_frequency", .mstr "real_time_on_demand")] }

/-- The static `analysis_data` dictionary (insertion order of the source). -/
def analysisData : List (String × AnalysisRecord) :=
  [("seo_analysis", seoRecord), ("keyword_research", keywordRecord),
   ("domain_analysis", domainRecord), ("serp_analysis", serpRecord),
   ("web_scraping", webScrapingRecord),
   ("competitor_analysis", competitorRecord)]

/-- Keys of `analysis_data`, in order (`analysis_data.keys()`). -/
def availableIds : List String :=
  ["seo_analysis", "keyword_research", "domain_analysis", "serp_analysis",
   "web_scraping", "competitor_analysis"]

/-- Lines 461-470 of `fetch`: the `error_data` record built for an unknown
id. -/
def errorRecord (id : String) : AnalysisRecord :=
  { id := "error"
    title := "Unknown Analysis ID: " ++ id
    text := "The requested analysis ID \x27" ++ id
      ++ "\x27 is not available. Available analysis IDs are: "
      ++ String.intercalate ", " availableIds
      ++ ". Please use the search tool first to find valid analysis IDs."
    url := "https://docs.fetchserp.com/api-reference/"
    metadata := [("error", .mstr "invalid_analysis_id"),
      ("available_ids", .mlist availableIds)] }

/-- Lines 459-470 of `fetch`: `analysis_data.get(id)` with the error-record
fallback. -/
def fetchRecord (id : String) : AnalysisRecord :=
  match analysisData.lookup id with
  | some d => d
  | none => errorRecord id

/-- JSON rendering of an analysis record (source key order). -/
def recordToJson (r : AnalysisRecord) : Json :=
  Json.obj [("id", Json.str r.id), ("title", Json.str r.title),
    ("text", Json.str r.text), ("url", Json.str r.url),
    ("metadata", Json.obj (r.metadata.map fun kv => (kv.1,
      match kv.2 with
      | .mstr s => Json.str s
      | .mlist l => Json.arr (l.map Json.str))))]

/-- Line 473: `json.dumps(data)`, before serialisation. -/
def fetchPayload (id : String) : Json :=
  recordToJson (fetchRecord id)

/-- Lines 472-474 of `fetch`: the returned content array
`[\x7b"type": "text", "text": data_json\x7d]`. -/
def fetchTool (id : String) : List ContentBlock :=
  [{ type := "text", text := dumps (fetchPayload id) }]

/-- The `fetch` handler reads no clock and consults no mutable state, so a
request served at wall-clock time `t` (seconds, say) produces the same
content as at any other time; this definition makes that time-indexed view
explicit for the expiry claims. -/
def fetchToolAtTime (_t : Nat) (id : String) : List ContentBlock :=
  fetchTool id

/-! Upstream client `call_fetchserp` (lines 27-38). -/

/-- Line 32: the single timeout (in seconds) configured on the
`httpx.AsyncClient` that performs every upstream FetchSERP request
(`timeout=30.0`). -/
def fetchserpTimeoutSeconds : Nat := 30

/-- Lines 33-38 of `call_fetchserp`: the upstream response is returned as
parsed JSON; any exception (non-2xx status, transport failure, timeout) is
caught and becomes an `\x7b"error": ...\x7d` dictionary, never a raised
error. The network interaction itself is abstracted as an `Except` input. -/
def callFetchserp (upstream : Except String Json) : Json :=
  match upstream with
  | .ok j => j
  | .error e => Json.obj [("error", Json.str ("API call failed: " ++ e))]

/-! Sanity lemmas about the embedding. -/

/-- Literal key list agrees with `analysisData.map Prod.fst`. -/
theorem availableIds_eq_keys : availableIds = analysisData.map Prod.fst := rfl

/-- A record appended under a flag is the flagged record. -/
theorem eq_of_mem_flagged {r x : SearchResult} {b : Bool}
    (h : r ∈ flagged b x) : r = x := by
  cases b
  · simp [flagged] at h
  · simp [flagged] at h; exact h

/-- Whatever the six category flags, `buildResults` only ever emits the six
fixed records. -/
theorem buildResults_subset (b1 b2 b3 b4 b5 b6 : Bool) :
    buildResults b1 b2 b3 b4 b5 b6 ⊆ allSearchResults := by
  intro r hr
  simp only [buildResults] at hr
  split at hr
  · simp only [defaultResults, List.mem_cons, List.not_mem_nil, or_false] at hr
    rcases hr with rfl | rfl | rfl | rfl <;> simp [allSearchResults]
  · simp only [List.mem_append] at hr
    rcases hr with ((((h | h) | h) | h) | h) | h <;>
      rcases eq_of_mem_flagged h with rfl <;> simp [allSearchResults]

/-- Every result the `search` tool can return is one of the six fixed
records. -/
theorem searchResults_mem {q : String} {r : SearchResult}
    (h : r ∈ searchResults q) : r ∈ allSearchResults :=
  buildResults_subset _ _ _ _ _ _ h

/-- An id outside `availableIds` misses the `analysis_data` lookup. -/
theorem lookup_eq_none_of_not_mem {id : String} (h : id ∉ availableIds) :
    analysisData.lookup id = none := by
  simp only [availableIds, List.mem_cons, List.not_mem_nil, or_false,
    not_or] at h
  obtain ⟨h1, h2, h3, h4, h5, h6⟩ := h
  simp [analysisData, List.lookup, beq_eq_false_iff_ne.mpr h1,
    beq_eq_false_iff_ne.mpr h2, beq_eq_false_iff_ne.mpr h3,
    beq_eq_false_iff_ne.mpr h4, beq_eq_false_iff_ne.mpr h5,
    beq_eq_false_iff_ne.mpr h6]

/-! Claim theorems. -/

/-- C1, counterexample: the claim as stated fails on the `url` field.  The
search entry for id `seo_analysis` carries the marketing URL
`https://www.fetchserp.com/api/web-page-seo-analysis`, while `fetch` on that
id returns the docs URL, so the fields (id, title, url) do not all match. -/
theorem search_fetch_url_mismatch :
    seoResult ∈ searchResults "seo" ∧
    (fetchRecord seoResult.id).url ≠ seoResult.url := by decide

/-- C1 (amended): for every id contained in a result list returned by
`search`, `fetch` on that id returns a record whose `id` and `title` equal
the search item\x27s, and which is not the unknown-id error record; the `url`
fields differ. -/
theorem search_fetch_roundtrip_id_title (q : String) (r : SearchResult)
    (h : r ∈ searchResults q) :
    (fetchRecord r.id).id = r.id ∧ (fetchRecord r.id).title = r.title ∧
    (fetchRecord r.id).id ≠ "error" := by
  have m : r ∈ [seoResult, keywordResult, domainResult, serpResult, webScrapingResult,
      competitorResult] := searchResults_mem h
  clear h
  fin_cases m <;> decide

/-- C1 witness: the round trip at query `"seo"` and its first result. -/
theorem search_fetch_roundtrip_id_title_witness :
    (fetchRecord seoResult.id).id = seoResult.id ∧
    (fetchRecord seoResult.id).title = seoResult.title ∧
    (fetchRecord seoResult.id).id ≠ "error" :=
  search_fetch_roundtrip_id_title "seo" seoResult (by decide)

/-- C2: the id attached to a result is a function of the result alone
(in the source it is a string constant per category): two results returned
by any two `search` calls that designate the same underlying resource (same
`url`) always carry the identical id, so repeated registration of the same
logical result never yields two different ids.  `search` is a pure function
of its query, so the ids are also stable across calls and restarts. -/
theorem search_id_deterministic (q1 q2 : String) (r1 r2 : SearchResult)
    (h1 : r1 ∈ searchResults q1) (h2 : r2 ∈ searchResults q2)
    (hurl : r1.url = r2.url) : r1.id = r2.id := by
  have m1 : r1 ∈ [seoResult, keywordResult, domainResult, serpResult, webScrapingResult,
      competitorResult] := searchResults_mem h1
  have m2 : r2 ∈ [seoResult, keywordResult, domainResult, serpResult, webScrapingResult,
      competitorResult] := searchResults_mem h2
  clear h1 h2
  revert hurl
  fin_cases m1 <;> fin_cases m2 <;> decide

/-- C2 witness: the SEO record from queries `"seo"` and `"website audit"`. -/
theorem search_id_deterministic_witness : seoResult.id = seoResult.id :=
  search_id_deterministic "seo" "website audit" seoResult seoResult
    (by decide) (by decide) rfl

/-- C3, counterexample: `fetch` has no notion of time or TTL.  A lookup
10^9 seconds after any insertion returns exactly what an immediate lookup
returns, and the known id `seo_analysis` is still found (not the error
record), contradicting expiry after TTL. -/
theorem fetch_ignores_elapsed_time_counterexample :
    fetchToolAtTime 1000000000 "seo_analysis" = fetchToolAtTime 0 "seo_analysis" ∧
    (fetchRecord "seo_analysis").id = "seo_analysis" ∧
    (fetchRecord "seo_analysis").id ≠ "error" :=
  ⟨rfl, by decide, by decide⟩

/-- C3 (amended): `fetch` is independent of invocation time — there is no
TTL and entries never expire; every id in `analysis_data` is found no matter
how much time has elapsed. -/
theorem fetch_time_independent (t t2 : Nat) (id : String) :
    fetchToolAtTime t id = fetchToolAtTime t2 id ∧
    (id ∈ availableIds → (fetchRecord id).id = id ∧ (fetchRecord id).id ≠ "error") := by
  refine ⟨rfl, fun h => ?_⟩
  fin_cases h <;> decide

/-- C3 witness: `serp_analysis` fetched at time 10^6 and at time 0. -/
theorem fetch_time_independent_witness :
    fetchToolAtTime 1000000 "serp_analysis" = fetchToolAtTime 0 "serp_analysis" ∧
    (fetchRecord "serp_analysis").id = "serp_analysis" ∧
    (fetchRecord "serp_analysis").id ≠ "error" := by
  have h := fetch_time_independent 1000000 0 "serp_analysis"
  exact ⟨h.1, h.2 (by decide)⟩

/-- C4, counterexample: an unknown fetch id is not reported in a "missing"
list — the payload has no such list; instead an in-band error record is
returned (id `error`, metadata `invalid_analysis_id`). -/
theorem fetch_unknown_id_error_record :
    (fetchRecord "bogus").id = "error" ∧
    (fetchRecord "bogus").metadata.lookup "error" = some (.mstr "invalid_analysis_id") ∧
    "missing" ∉ jsonTopKeys (fetchPayload "bogus") ∧
    (fetchTool "bogus").length = 1 := by decide

/-- C4 (amended): a fetch id with no entry never fails the call — `fetch`
still returns the single text content block — but the id is surfaced through
an in-band error record (id `error`, title naming the unknown id), not
through a "missing" list, which does not exist in the payload. -/
theorem fetch_unknown_id_in_band (id : String) (h : id ∉ availableIds) :
    (fetchTool id).length = 1 ∧ (fetchRecord id).id = "error" ∧
    (fetchRecord id).title = "Unknown Analysis ID: " ++ id ∧
    "missing" ∉ jsonTopKeys (fetchPayload id) := by
  have hl := lookup_eq_none_of_not_mem h
  refine ⟨rfl, ?_, ?_, ?_⟩
  · simp [fetchRecord, hl, errorRecord]
  · simp [fetchRecord, hl, errorRecord]
  · simp only [fetchPayload, recordToJson, jsonTopKeys, List.map_cons,
      List.map_nil]
    decide

/-- C4 witness: the unknown id `nonexistent`. -/
theorem fetch_unknown_id_in_band_witness :
    (fetchTool "nonexistent").length = 1 ∧
    (fetchRecord "nonexistent").id = "error" ∧
    (fetchRecord "nonexistent").title = "Unknown Analysis ID: " ++ "nonexistent" ∧
    "missing" ∉ jsonTopKeys (fetchPayload "nonexistent") :=
  fetch_unknown_id_in_band "nonexistent" (by decide)

/-- C5, counterexample: the claimed degradation path does not exist — the
fetch payload has no `docs` list to return a document in, and the content
for a valid id is canned, non-empty text (no upstream retrieval happens,
so none can fail). -/
theorem fetch_no_docs_list :
    (fetchRecord "keyword_research").text ≠ "" ∧
    "docs" ∉ jsonTopKeys (fetchPayload "keyword_research") := by decide

/-- C5 (amended): `fetch` performs no per-id upstream content retrieval at
all; for every valid id it returns one content block whose record carries
non-empty canned text, and the payload has neither a `docs` nor a `missing`
list, so an upstream failure can never affect the result. -/
theorem fetch_canned_content (id : String) (h : id ∈ availableIds) :
    (fetchTool id).length = 1 ∧ (fetchRecord id).text ≠ "" ∧
    "docs" ∉ jsonTopKeys (fetchPayload id) ∧
    "missing" ∉ jsonTopKeys (fetchPayload id) := by
  fin_cases h <;> decide

/-- C5 witness: the valid id `web_scraping`. -/
theorem fetch_canned_content_witness :
    (fetchTool "web_scraping").length = 1 ∧
    (fetchRecord "web_scraping").text ≠ "" ∧
    "docs" ∉ jsonTopKeys (fetchPayload "web_scraping") ∧
    "missing" ∉ jsonTopKeys (fetchPayload "web_scraping") :=
  fetch_canned_content "web_scraping" (by decide)

/-- C6, counterexample: the search payload\x27s top-level key is `results`,
not `items`, and the fetch payload is a single record
(id, title, text, url, metadata), not `docs`/`missing`. -/
theorem payload_shape_mismatch :
    jsonTopKeys (searchPayload "seo") = ["results"] ∧
    jsonTopKeys (searchPayload "seo") ≠ ["items"] ∧
    jsonTopKeys (fetchPayload "seo_analysis") = ["id", "title", "text", "url", "metadata"] ∧
    jsonTopKeys (fetchPayload "seo_analysis") ≠ ["docs", "missing"] := by decide

/-- C6 (amended): each tool\x27s output is a single text-typed content block
holding a JSON-encoded payload, but the top-level shape is
`\x7bresults: [...]\x7d` for search and a single record
`\x7bid, title, text, url, metadata\x7d` for fetch. -/
theorem tool_output_shape (q id : String) :
    (searchTool q).length = 1 ∧
    ((searchTool q).all fun b => b.type == "text") = true ∧
    jsonTopKeys (searchPayload q) = ["results"] ∧
    (fetchTool id).length = 1 ∧
    ((fetchTool id).all fun b => b.type == "text") = true ∧
    jsonTopKeys (fetchPayload id) = ["id", "title", "text", "url", "metadata"] :=
  ⟨rfl, rfl, rfl, rfl, rfl, rfl⟩

/-- C7, counterexample: there is no top-K truncation — `search` has no
`top_k` parameter, and the spec\x27s own example query returns exactly one
item (the SERP record matched by the word `ranking`), not the requested
two. -/
theorem search_no_topk_truncation :
    (searchResults "site ranking tools").length = 1 ∧
    (searchResults "site ranking tools").length ≠ 2 := by decide

/-- C7 (amended): `search` accepts no top-K and truncates nothing; it
returns the category records matched by the query (the default four when
none match), and every returned item carries a non-empty id.  No cache
entries exist. -/
theorem search_item_ids_nonempty (q : String) (r : SearchResult)
    (h : r ∈ searchResults q) : r.id ≠ "" := by
  have m : r ∈ [seoResult, keywordResult, domainResult, serpResult, webScrapingResult,
      competitorResult] := searchResults_mem h
  clear h
  fin_cases m <;> decide

/-- C7 witness: the first default item for the empty query. -/
theorem search_item_ids_nonempty_witness : seoResult.id ≠ "" :=
  search_item_ids_nonempty "" seoResult (by decide)

/-- C8: the single function that performs upstream network requests,
`call_fetchserp`, configures its HTTP client with a bounded timeout of 30
seconds — on the order of tens of seconds — so no upstream request can
block its caller indefinitely. -/
theorem upstream_timeout_bounded :
    fetchserpTimeoutSeconds = 30 ∧ 0 < fetchserpTimeoutSeconds ∧
    fetchserpTimeoutSeconds ≤ 60 := by decide

/-- Helper for C9: bounds on `buildResults` over all 64 flag combinations. -/
theorem buildResults_length_bounds : ∀ b1 b2 b3 b4 b5 b6 : Bool,
    1 ≤ (buildResults b1 b2 b3 b4 b5 b6).length ∧
    (buildResults b1 b2 b3 b4 b5 b6).length ≤ 6 ∧
    (b1 = false → b2 = false → b3 = false → b4 = false → b5 = false →
      b6 = false → buildResults b1 b2 b3 b4 b5 b6 = defaultResults) := by
  decide

/-- C9: `search` always returns between 1 and 6 results, and when no
category keyword matches the lower-cased query it returns exactly the
default list of four analysis entries. -/
theorem search_result_count (q : String) :
    1 ≤ (searchResults q).length ∧ (searchResults q).length ≤ 6 ∧
    (anyWord seoWords (lowerStr q) = false →
     anyWord keywordWords (lowerStr q) = false →
     anyWord domainWords (lowerStr q) = false →
     anyWord serpWords (lowerStr q) = false →
     anyWord scrapeWords (lowerStr q) = false →
     anyWord competitorWords (lowerStr q) = false →
     searchResults q = defaultResults) :=
  buildResults_length_bounds (anyWord seoWords (lowerStr q))
    (anyWord keywordWords (lowerStr q)) (anyWord domainWords (lowerStr q))
    (anyWord serpWords (lowerStr q)) (anyWord scrapeWords (lowerStr q))
    (anyWord competitorWords (lowerStr q))

/-- C9 witness: the query `hello` matches no category and yields the four
default entries. -/
theorem search_result_count_witness :
    1 ≤ (searchResults "hello").length ∧ (searchResults "hello").length ≤ 6 ∧
    searchResults "hello" = defaultResults := by
  have h := search_result_count "hello"
  exact ⟨h.1, h.2.1, h.2.2 (by decide) (by decide) (by decide) (by decide)
    (by decide) (by decide)⟩

/-- C10: `search` is a pure function of the lower-cased query: any two
queries with the same lower-case form produce identical content blocks. -/
theorem search_case_insensitive (q1 q2 : String)
    (h : lowerStr q1 = lowerStr q2) : searchTool q1 = searchTool q2 := by
  unfold searchTool searchPayload searchResults
  rw [h]

/-- C10 witness: `SEO Audit` and `seo audit`. -/
theorem search_case_insensitive_witness :
    searchTool "SEO Audit" = searchTool "seo audit" :=
  search_case_insensitive "SEO Audit" "seo audit" (by decide)

end FetchServ
